import Mathlib

/-!
Verification development for the PianoTutor LED controller
(`mscore/tutor.cpp`, `mscore/tutor.h`).

The C++ class `Tutor` is shallowly embedded as a pure state machine:

* `Tnote` mirrors the C struct `tnote` (`velo`, `channel`, `future`,
  `ts`); `Timespec` mirrors `struct timespec` with mathematical-integer
  fields (the code only ever compares timestamps against zero and takes
  differences).
* `TutorState` holds the fields of class `Tutor` that the verified
  operations touch: the 256-entry `notes` table, `num_curr_events`,
  `needs_flush`, `lit_until_release`, the calibration values `c4light`
  and `coeff`, and the color table.  Serial I/O is represented by a
  trace `cmds` of structured protocol commands together with a flag
  `serialOk` standing for the (stable) result of `checkSerial()`:
  when it is `false` every light operation degrades to a no-op exactly
  as in the source.  `flush_scheduled` records that
  `QTimer::singleShot(FLUSH_TOUT, ... onFlushTimer)` was invoked.
* `clock_gettime(CLOCK_MONOTONIC, ...)` results are passed in as an
  explicit `now : Timespec` argument.
* The C `double coeff` is modelled as a rational number; `round` is
  `cRound`, rounding half away from zero as the C library function does.
  C integer division/remainder (truncation toward zero) is `Int.tdiv` /
  `Int.tmod`.
* The header declares `int colors[2][3]` while `setTutorLight` indexes
  `colors[1 + channel % 2]`, i.e. row 2 for odd channels, one past the
  declared array; the model gives the table three rows (as in the
  initialiser `def_colors[3][3]`) so that the access is total.  No
  theorem below depends on the contents of row 2.
* The constructor only initialises `velo = -1` in each slot; the other
  slot fields are indeterminate in C++ and are set to zero in the model.
  They are never read before being written on the sequences considered.

`safe_write`'s handshake loop is modelled separately over an explicit
oracle of read results (`safeWriteHandshake`), since it interacts with
the device rather than with the key table.
-/

/-- Monotonic-clock timestamp, mirroring `struct timespec`. -/
structure Timespec where
  tv_sec : Int
  tv_nsec : Int
deriving DecidableEq, Repr

/-- One key slot, mirroring `tnote` from `tutor.h`:
`velo = -1` means unused, `velo = -2` is the pressed/mistake sentinel. -/
structure Tnote where
  velo : Int
  channel : Int
  future : Int
  ts : Timespec
deriving DecidableEq, Repr

/-- An RGB color triple (one row of `colors`). -/
structure RGB where
  r : Int
  g : Int
  b : Int
deriving DecidableEq, Repr

/-- A protocol command written to the serial device.  `setLight` carries
the LED index and color fields of an `H`-command. -/
inductive Cmd where
  | setLight (led r g b : Int)
  | flushCmd
  | clearAll
deriving DecidableEq, Repr

/-- Controller state: the members of class `Tutor` used by the verified
operations, plus the observable I/O trace. -/
structure TutorState where
  notes : Fin 256 → Tnote
  num_curr_events : Int
  needs_flush : Bool
  lit_until_release : Bool
  c4light : Int
  coeff : ℚ
  colors : Fin 3 → RGB
  serialOk : Bool
  cmds : List Cmd
  flush_scheduled : Bool

/-- The initialiser `def_colors[3][3]` from `tutor.cpp`. -/
def def_colors : Fin 3 → RGB := fun i =>
  if i = 0 then ⟨16, 0, 0⟩ else if i = 1 then ⟨16, 0, 16⟩ else ⟨0, 16, 16⟩

/-- The freshly-constructed controller (`Tutor::Tutor()`): all slots
unused, counter 0, `c4light = 71`, `coeff = -2.0`, no pending flush.
`serialOk` abstracts whether `checkSerial()` succeeds. -/
def initState (serialOk : Bool) : TutorState :=
  { notes := fun _ => ⟨-1, 0, 0, ⟨0, 0⟩⟩
    num_curr_events := 0
    needs_flush := false
    lit_until_release := false
    c4light := 71
    coeff := -2
    colors := def_colors
    serialOk := serialOk
    cmds := []
    flush_scheduled := false }

/-- The slot index for a pitch: `pitch &= 255` (two's-complement masking,
i.e. reduction mod 256). -/
def pitchIdx (pitch : Int) : Fin 256 :=
  ⟨(pitch % 256).toNat, by omega⟩

/-- C `round()`: round to nearest, ties away from zero. -/
def cRound (x : ℚ) : Int :=
  if x < 0 then -(Rat.floor ((1 : ℚ) / 2 - x)) else Rat.floor (x + 1 / 2)

/-- The clamp at the end of `Tutor::pitchToLight`. -/
def clampLed (led : Int) : Int :=
  if led < 0 then 0 else if led > 255 then 255 else led

/-- `Tutor::pitchToLight` (tutor.cpp lines 244-260): reference light and
pitch offset chosen by the `pitch >= 60` test, then
`round(diffpitch * coeff + reflight)` clamped to `[0, 255]`. -/
def pitchToLight (c4light : Int) (coeff : ℚ) (pitch : Int) : Int :=
  clampLed (cRound
    (((if pitch ≥ 60 then pitch - 60 else pitch - 59 : Int) : ℚ) * coeff
      + ((if pitch ≥ 60 then c4light
          else c4light + (if coeff > 0 then -1 else 1) : Int) : ℚ)))

/-- Modelled from the spec (section 4.2): for pitch ≥ 60,
`led = round((pitch-60)*coeff + c4light)`; below 60,
`led = round((pitch-59)*coeff + (c4light + (coeff>0 ? -1 : 1)))`;
result clamped to `[0, 255]`.  Written from the spec's words, to be
compared with `pitchToLight`, which is written from the source. -/
def pitchToLightSpec (c4light : Int) (coeff : ℚ) (pitch : Int) : Int :=
  if pitch ≥ 60 then
    min 255 (max 0 (cRound (((pitch - 60 : Int) : ℚ) * coeff + (c4light : ℚ))))
  else
    min 255 (max 0 (cRound (((pitch - 59 : Int) : ℚ) * coeff
      + ((c4light + (if coeff > 0 then -1 else 1) : Int) : ℚ))))

/-- The color row used by `setTutorLight`: row 0 for `channel == -1`,
otherwise row `1 + channel % 2` with C truncating remainder (so an
odd negative channel yields `1 + (-1) = 0`). -/
def colorIndex (channel : Int) : Fin 3 :=
  if channel = -1 then 0
  else if Int.tmod channel 2 = 0 then 1
  else if Int.tmod channel 2 = 1 then 2
  else 0

/-- The `future > 0` dimming in `setTutorLight`: integer division by 8. -/
def dimIf (future x : Int) : Int :=
  if future > 0 then Int.tdiv x 8 else x

/-- The `H`-command `setTutorLight` builds for a pitch/channel/future. -/
def lightCmd (s : TutorState) (pitch channel future : Int) : Cmd :=
  Cmd.setLight (pitchToLight s.c4light s.coeff pitch)
    (dimIf future (s.colors (colorIndex channel)).r)
    (dimIf future (s.colors (colorIndex channel)).g)
    (dimIf future (s.colors (colorIndex channel)).b)

/-- `Tutor::setTutorLight`: if the serial link is up, write one
set-light command and mark a flush as pending; otherwise a no-op. -/
def setTutorLight (s : TutorState) (pitch velo channel future : Int) : TutorState :=
  if s.serialOk then
    { s with cmds := s.cmds ++ [lightCmd s pitch channel future], needs_flush := true }
  else s

/-- `Tutor::clearTutorLight`: write a set-light command with color
(0,0,0) and mark a flush as pending. -/
def clearTutorLight (s : TutorState) (pitch : Int) : TutorState :=
  if s.serialOk then
    { s with
        cmds := s.cmds ++ [Cmd.setLight (pitchToLight s.c4light s.coeff pitch) 0 0 0]
        needs_flush := true }
  else s

/-- `Tutor::setTutorLightPressed`: write a set-light command with the
dark-grey color (2,2,2) and mark a flush as pending. -/
def setTutorLightPressed (s : TutorState) (pitch : Int) : TutorState :=
  if s.serialOk then
    { s with
        cmds := s.cmds ++ [Cmd.setLight (pitchToLight s.c4light s.coeff pitch) 2 2 2]
        needs_flush := true }
  else s

/-- Store a slot (`notes[p] = n`). -/
def writeNote (s : TutorState) (p : Fin 256) (n : Tnote) : TutorState :=
  { s with notes := Function.update s.notes p n }

/-- `++num_curr_events`. -/
def bumpCurr (s : TutorState) : TutorState :=
  { s with num_curr_events := s.num_curr_events + 1 }

/-- `--num_curr_events`. -/
def dropCurr (s : TutorState) : TutorState :=
  { s with num_curr_events := s.num_curr_events - 1 }

/-- `QTimer::singleShot(FLUSH_TOUT, ..., onFlushTimer)`: a deferred
flush is scheduled. -/
def scheduleFlush (s : TutorState) : TutorState :=
  { s with flush_scheduled := true }

/-- The committing tail of `addKey`:
`n = (tnote) {velo, channel, future, {0, 0}}; setTutorLight(...)`. -/
def commitKey (s : TutorState) (pitch velo channel future : Int) : TutorState :=
  setTutorLight (writeNote s (pitchIdx pitch) ⟨velo, channel, future, ⟨0, 0⟩⟩)
    pitch velo channel future

/-- The `unsigned long diff_us` computation in `addKey`: C `long`
arithmetic with truncating division, converted to a 64-bit unsigned
value for the `< 100000` comparison. -/
def diff_us (now prev : Timespec) : Int :=
  ((now.tv_sec - prev.tv_sec) * 1000000
    + Int.tdiv (now.tv_nsec - prev.tv_nsec) 1000) % (2 ^ 64)

/-- The anti-flicker tail of `addKey` (tutor.cpp lines 351-365): if a
previous timestamp was captured and the claim is within 100 ms of it,
clear the light again, decrement the counter and mark the slot unused. -/
def antiFlicker (s : TutorState) (pitch : Int) (prev now : Timespec) : TutorState :=
  if prev.tv_sec ≠ 0 ∨ prev.tv_nsec ≠ 0 then
    if diff_us now prev < 100000 then
      writeNote (dropCurr (clearTutorLight s pitch)) (pitchIdx pitch)
        { (clearTutorLight s pitch).notes (pitchIdx pitch) with velo := -1 }
    else s
  else s

/-- `Tutor::clearKeyNoLock` (tutor.cpp lines 368-387). -/
def clearKeyNoLock (s : TutorState) (pitch : Int) (mark : Bool) (now : Timespec) : TutorState :=
  if (s.notes (pitchIdx pitch)).velo = -2 then
    writeNote (clearTutorLight s pitch) (pitchIdx pitch)
      { s.notes (pitchIdx pitch) with velo := -1 }
  else if (s.notes (pitchIdx pitch)).velo ≠ -1 then
    if (s.notes (pitchIdx pitch)).future = 0 then
      writeNote (dropCurr (clearTutorLight s pitch)) (pitchIdx pitch)
        { s.notes (pitchIdx pitch) with velo := -1 }
    else if mark then
      writeNote s (pitchIdx pitch) { s.notes (pitchIdx pitch) with ts := now }
    else s
  else s

/-- `Tutor::clearKey`: the locking wrapper around `clearKeyNoLock`. -/
def clearKey (s : TutorState) (pitch : Int) (mark : Bool) (now : Timespec) : TutorState :=
  clearKeyNoLock s pitch mark now

/-- `Tutor::addKey` (tutor.cpp lines 319-366).  `now` is the value
`clock_gettime` would return inside the call. -/
def addKey (s : TutorState) (pitch velo channel future : Int) (now : Timespec) : TutorState :=
  if velo = 0 then clearKey s pitch false now
  else if velo = (s.notes (pitchIdx pitch)).velo
          ∧ channel = (s.notes (pitchIdx pitch)).channel
          ∧ future = (s.notes (pitchIdx pitch)).future then s
  else if channel = -1 then
    writeNote (setTutorLight s pitch velo channel 0) (pitchIdx pitch)
      { s.notes (pitchIdx pitch) with velo := -2 }
  else if (s.notes (pitchIdx pitch)).velo ≠ -1 ∧ (s.notes (pitchIdx pitch)).velo ≠ -2 then
    if future = 0 ∧ (s.notes (pitchIdx pitch)).future > 0 then
      antiFlicker (commitKey (bumpCurr s) pitch velo channel future) pitch
        (if (s.notes (pitchIdx pitch)).ts.tv_sec ≠ 0
            ∨ (s.notes (pitchIdx pitch)).ts.tv_nsec ≠ 0
         then (s.notes (pitchIdx pitch)).ts else ⟨0, 0⟩)
        now
    else if future > (s.notes (pitchIdx pitch)).future
            ∨ (future = (s.notes (pitchIdx pitch)).future
                ∧ velo < (s.notes (pitchIdx pitch)).velo) then s
    else commitKey s pitch velo channel future
  else
    commitKey (if future = 0 then bumpCurr s else s) pitch velo channel future

/-- `Tutor::keyPressed` (tutor.cpp lines 435-472): returns the updated
state together with the `int` return value. -/
def keyPressed (s : TutorState) (pitch velo : Int) (now : Timespec) : TutorState × Int :=
  if velo = 0 then (s, -1)
  else if (s.notes (pitchIdx pitch)).velo = -1 ∨ (s.notes (pitchIdx pitch)).velo = -2 then
    (s, -1)
  else if (s.notes (pitchIdx pitch)).future = 0 then
    if s.lit_until_release then
      (scheduleFlush (dropCurr (setTutorLightPressed
        (writeNote s (pitchIdx pitch) { s.notes (pitchIdx pitch) with velo := -2 })
        pitch)), 0)
    else
      (scheduleFlush (dropCurr (clearTutorLight
        (writeNote s (pitchIdx pitch) { s.notes (pitchIdx pitch) with velo := -1 })
        pitch)), 0)
  else if (s.notes (pitchIdx pitch)).future > 0 ∧ s.num_curr_events = 0 then
    (scheduleFlush (clearKeyNoLock s pitch true now), (s.notes (pitchIdx pitch)).future)
  else (s, -1)

/-- `Tutor::setColor` (tutor.cpp lines 426-430): store a color triple
verbatim, with no clamping. -/
def setColor (s : TutorState) (idx : Fin 3) (r g b : Int) : TutorState :=
  { s with colors := Function.update s.colors idx ⟨r, g, b⟩ }

/-- One public call on the controller, for reasoning about sequences. -/
inductive TutorOp where
  | add (pitch velo channel future : Int) (now : Timespec)
  | clear (pitch : Int) (mark : Bool) (now : Timespec)
  | press (pitch velo : Int) (now : Timespec)

/-- Apply one public call. -/
def applyOp (s : TutorState) : TutorOp → TutorState
  | .add pitch velo channel future now => addKey s pitch velo channel future now
  | .clear pitch mark now => clearKey s pitch mark now
  | .press pitch velo now => (keyPressed s pitch velo now).1

/-- Apply a sequence of public calls, oldest first. -/
def runOps (s : TutorState) (ops : List TutorOp) : TutorState :=
  ops.foldl applyOp s

/-- The number of slots holding a current claimed event: `velo` neither
-1 nor -2, and `future == 0` (the count `num_curr_events` is supposed
to track). -/
def claimedCount (s : TutorState) : Nat :=
  ((List.finRange 256).filter
    (fun i => decide ((s.notes i).velo ≠ -1 ∧ (s.notes i).velo ≠ -2
      ∧ (s.notes i).future = 0))).length

/-- The handshake loop at the top of `Tutor::safe_write` (tutor.cpp
lines 201-209), run against an oracle listing the outcome of each
`READ` (`some c` = one byte `c` read, `none` = timeout, no byte).
Each iteration writes the two-byte ping and reads; on a timeout
`pong_char` keeps its previous value.  The source line
`if (pong_char != 'P') continue;` jumps to the `do`-`while` condition
`bytes_read != 1`, which is where control falls anyway, so it does not
alter the flow; the loop exits as soon as one byte was read, whatever
its value.  Returns the final `pong_char` at exit, or `none` if the
oracle is exhausted with the loop still spinning. -/
def safeWriteHandshake : List (Option Char) → Char → Option Char
  | [], _ => none
  | r :: rest, pong_char =>
    let pong' : Char := match r with | some c => c | none => pong_char
    let bytes_read : Int := match r with | some _ => 1 | none => 0
    if bytes_read ≠ 1 then safeWriteHandshake rest pong' else some pong'

/-- The observable effect of `safe_write(data, len)` given the read
oracle: the command bytes are written exactly when the handshake loop
exits. -/
def safeWriteSends (reads : List (Option Char)) (data : List Char) : Option (List Char) :=
  match safeWriteHandshake reads '.' with
  | some _ => some data
  | none => none

/-- Modelled from the spec (section 4.3 and claim C3): the intended
handshake retries the ping/read exchange until the byte read back is
the pong character `P`; missing from `src/` only in the sense that the
code's loop differs — this definition follows the spec's words for
comparison. -/
def intendedHandshake : List (Option Char) → Option Char
  | [] => none
  | r :: rest =>
    match r with
    | some c => if c = 'P' then some c else intendedHandshake rest
    | none => intendedHandshake rest

/-- The condition under which the anti-flicker tail of `addKey` fires,
phrased on the pre-state slot `n` and the arguments: the slot is
claimed, the new claim is current while the slot held a future event,
a timestamp was recorded, and the call is within 100 ms of it. -/
def antiFlickerFires (n : Tnote) (future : Int) (now : Timespec) : Prop :=
  n.velo ≠ -1 ∧ n.velo ≠ -2 ∧ future = 0 ∧ n.future > 0
    ∧ (n.ts.tv_sec ≠ 0 ∨ n.ts.tv_nsec ≠ 0) ∧ diff_us now n.ts < 100000

instance (n : Tnote) (future : Int) (now : Timespec) :
    Decidable (antiFlickerFires n future now) := by
  unfold antiFlickerFires; infer_instance

/-- Concrete scenario: a future event queued on pitch 60
(`addKey(60, 100, 0, 3)` on a fresh controller with the device up). -/
def exFutureState : TutorState := addKey (initState true) 60 100 0 3 ⟨0, 0⟩

/-- Concrete scenario: the future event on pitch 60 was skipped ahead by
`keyPressed(60, 64)` at time 100 s, which marked its timestamp. -/
def exMarkedState : TutorState := (keyPressed exFutureState 60 64 ⟨100, 0⟩).1

/-- Concrete scenario: a claimed future event with horizon 2 on pitch 60. -/
def exClaimedState : TutorState := addKey (initState true) 60 100 0 2 ⟨0, 0⟩

/-- The call sequence refuting the counter invariant: a current event on
pitch 5, then a mistake marker (`channel = -1`) on the same pitch. -/
def mistakeOverCurrentOps : List TutorOp :=
  [TutorOp.add 5 100 0 0 ⟨0, 0⟩, TutorOp.add 5 50 (-1) 0 ⟨0, 0⟩]

set_option maxRecDepth 8000

theorem setTutorLight_notes (s : TutorState) (pitch velo channel future : Int) :
    (setTutorLight s pitch velo channel future).notes = s.notes := by
  unfold setTutorLight; split <;> rfl

theorem setTutorLight_num (s : TutorState) (pitch velo channel future : Int) :
    (setTutorLight s pitch velo channel future).num_curr_events = s.num_curr_events := by
  unfold setTutorLight; split <;> rfl

theorem setTutorLight_serialOk (s : TutorState) (pitch velo channel future : Int) :
    (setTutorLight s pitch velo channel future).serialOk = s.serialOk := by
  unfold setTutorLight; split <;> rfl

theorem clearTutorLight_notes (s : TutorState) (pitch : Int) :
    (clearTutorLight s pitch).notes = s.notes := by
  unfold clearTutorLight; split <;> rfl

theorem clearTutorLight_num (s : TutorState) (pitch : Int) :
    (clearTutorLight s pitch).num_curr_events = s.num_curr_events := by
  unfold clearTutorLight; split <;> rfl

theorem commitKey_notes_self (s : TutorState) (pitch velo channel future : Int) :
    (commitKey s pitch velo channel future).notes (pitchIdx pitch)
      = ⟨velo, channel, future, ⟨0, 0⟩⟩ := by
  unfold commitKey
  rw [setTutorLight_notes]
  simp [writeNote]

theorem commitKey_num (s : TutorState) (pitch velo channel future : Int) :
    (commitKey s pitch velo channel future).num_curr_events = s.num_curr_events := by
  unfold commitKey
  rw [setTutorLight_num]
  rfl

theorem commitKey_serialOk (s : TutorState) (pitch velo channel future : Int) :
    (commitKey s pitch velo channel future).serialOk = s.serialOk := by
  unfold commitKey
  rw [setTutorLight_serialOk]
  rfl

theorem commitKey_cmds (s : TutorState) (pitch velo channel future : Int)
    (h : s.serialOk = true) :
    (commitKey s pitch velo channel future).cmds
      = s.cmds ++ [lightCmd s pitch channel future] := by
  unfold commitKey setTutorLight
  rw [if_pos
    (show (writeNote s (pitchIdx pitch) ⟨velo, channel, future, ⟨0, 0⟩⟩).serialOk = true from h)]
  rfl

theorem clearTutorLight_cmds (s : TutorState) (pitch : Int) (h : s.serialOk = true) :
    (clearTutorLight s pitch).cmds
      = s.cmds ++ [Cmd.setLight (pitchToLight s.c4light s.coeff pitch) 0 0 0] := by
  unfold clearTutorLight
  rw [if_pos h]

theorem addKey_idem (s : TutorState) (pitch velo channel future : Int) (now : Timespec)
    (h0 : velo ≠ 0)
    (h : velo = (s.notes (pitchIdx pitch)).velo
      ∧ channel = (s.notes (pitchIdx pitch)).channel
      ∧ future = (s.notes (pitchIdx pitch)).future) :
    addKey s pitch velo channel future now = s := by
  unfold addKey
  rw [if_neg h0, if_pos h]

theorem clampLed_eq_min_max (x : Int) : clampLed x = min 255 (max 0 x) := by
  unfold clampLed; split_ifs <;> omega

/-- C8: for every pitch, `pitchToLight` returns
`round((pitch-60)*coeff + c4light)` when `pitch ≥ 60`, and
`round((pitch-59)*coeff + (c4light + (coeff > 0 ? -1 : 1)))` when
`pitch < 60`, with the result clamped to `[0, 255]` — the source
function agrees with the spec's formula at every input. -/
theorem c8_pitchToLight_matches_spec (c4light : Int) (coeff : ℚ) (pitch : Int) :
    pitchToLight c4light coeff pitch = pitchToLightSpec c4light coeff pitch := by
  unfold pitchToLight pitchToLightSpec
  by_cases hp : pitch ≥ 60
  · simp only [if_pos hp]
    exact clampLed_eq_min_max _
  · simp only [if_neg hp]
    exact clampLed_eq_min_max _

/-- C10: whenever `keyPressed` returns -1 (zero velocity; slot unused or
holding the pressed/mistake sentinel; or a future event while current
events are pending), the controller state is left completely unchanged:
no slot modified, counter unchanged, no command written, no flush
scheduled. -/
theorem c10_keyPressed_noop_on_minus_one (s : TutorState) (pitch velo : Int)
    (now : Timespec) (h : (keyPressed s pitch velo now).2 = -1) :
    (keyPressed s pitch velo now).1 = s := by
  unfold keyPressed at h ⊢
  split_ifs at h ⊢ with h1 h2 h3 h5
  · rfl
  · rfl
  · exact absurd (show (s.notes (pitchIdx pitch)).future = -1 from h) (by omega)
  · rfl

/-- Witness for C10: on a fresh controller every slot is unused, so
`keyPressed(60, 100)` returns -1 and the state is untouched. -/
theorem c10_keyPressed_noop_witness :
    (keyPressed (initState true) 60 100 ⟨0, 0⟩).2 = -1
      ∧ (keyPressed (initState true) 60 100 ⟨0, 0⟩).1 = initState true :=
  ⟨by decide, c10_keyPressed_noop_on_minus_one _ _ _ _ (by decide)⟩

/-- C3 (code bug): the `do`-`while` handshake loop of `safe_write` exits
as soon as ONE byte is read, whatever its value: on a read oracle whose
first read yields the byte `X`, the loop stops with `pong_char = 'X'`
(not `'P'`) and the command bytes are written with no further retry.
The spec-modelled loop (`intendedHandshake`) keeps retrying instead. -/
theorem c3_handshake_exits_on_non_pong :
    safeWriteHandshake [some 'X'] '.' = some 'X' ∧ 'X' ≠ 'P'
      ∧ safeWriteSends [some 'X'] ['F', '\n'] = some ['F', '\n']
      ∧ intendedHandshake [some 'X'] = none :=
  ⟨rfl, by decide, rfl, rfl⟩

/-- C1 (code bug): after `addKey(5,100,0,0); addKey(5,50,-1,0)` from a
fresh controller, `num_curr_events` is 1 while no slot is claimed with
horizon 0 — the mistake-marker path overwrites a counted current event
with the -2 sentinel without decrementing the counter, so the claimed
invariant fails on this sequence. -/
theorem c1_counter_diverges_from_claimed_count :
    (runOps (initState true) mistakeOverCurrentOps).num_curr_events = 1
      ∧ claimedCount (runOps (initState true) mistakeOverCurrentOps) = 0 := by
  constructor
  · decide
  · decide

/-- Counterexample for C2: skipping ahead over the future event on pitch
60 (`keyPressed(60, 64)` with `num_curr_events = 0`) returns the horizon
3 but does NOT clear the claim — the slot still holds `velo = 100`,
`future = 3` (only its timestamp was marked), contradicting "the slot no
longer holds the claim". -/
theorem c2_slot_still_claimed_after_skip :
    (keyPressed exFutureState 60 64 ⟨100, 0⟩).2 = 3
      ∧ exFutureState.num_curr_events = 0
      ∧ (exFutureState.notes (pitchIdx 60)).future = 3
      ∧ (exMarkedState.notes (pitchIdx 60)).velo = 100
      ∧ (exMarkedState.notes (pitchIdx 60)).future = 3 := by
  decide

/-- Counterexample for C4: with the mistake channel `c = -1`, two
identical back-to-back `addKey(60, 100, -1, 0)` calls each write a light
command (the sentinel `velo = -2` stored by the first call never matches
the incoming velocity, so the idempotence check cannot fire). -/
theorem c4_mistake_channel_second_command :
    (addKey (initState true) 60 100 (-1) 0 ⟨0, 0⟩).cmds.length = 1
      ∧ (addKey (addKey (initState true) 60 100 (-1) 0 ⟨0, 0⟩)
          60 100 (-1) 0 ⟨0, 0⟩).cmds.length = 2 := by
  decide

/-- Counterexample for C5: pitch 60 holds a future event whose timestamp
was marked at 100 s; a current claim `addKey(60, 90, 0, 0)` arriving
50 ms later is displaced . . . and then immediately undone by the
anti-flicker rule: the slot ends unused (`velo = -1`) and the counter is
NOT incremented, contradicting the unconditional claim. -/
theorem c5_antiflicker_defeats_displacement :
    exMarkedState.num_curr_events = 0
      ∧ exMarkedState.notes (pitchIdx 60) = ⟨100, 0, 3, ⟨100, 0⟩⟩
      ∧ (addKey exMarkedState 60 90 0 0 ⟨100, 50000000⟩).num_curr_events = 0
      ∧ ((addKey exMarkedState 60 90 0 0 ⟨100, 50000000⟩).notes (pitchIdx 60)).velo = -1 := by
  decide

/-- Counterexample for C7: pitch 60 holds a future event with marked
timestamp 100 s; a FUTURE claim `addKey(60, 90, 0, 1)` arriving 10 ms
later (within the 100 ms window) wins the arbitration but does NOT
trigger the anti-flicker clear: the slot keeps the new claim
(`velo = 90`), the counter is not decremented, and exactly one (set)
command is written with no clear following it. -/
theorem c7_future_claim_within_window_not_cleared :
    exMarkedState.notes (pitchIdx 60) = ⟨100, 0, 3, ⟨100, 0⟩⟩
      ∧ diff_us ⟨100, 10000000⟩ ⟨100, 0⟩ < 100000
      ∧ ((addKey exMarkedState 60 90 0 1 ⟨100, 10000000⟩).notes (pitchIdx 60)).velo = 90
      ∧ (addKey exMarkedState 60 90 0 1 ⟨100, 10000000⟩).num_curr_events
          = exMarkedState.num_curr_events
      ∧ (addKey exMarkedState 60 90 0 1 ⟨100, 10000000⟩).cmds.length
          = exMarkedState.cmds.length + 1 := by
  decide

/-- Counterexample for C9: color components are NOT clamped — after
`setColor(1, 300, 0, 0)`, the light command issued by
`addKey(60, 100, 0, 0)` carries the out-of-range red component 300
verbatim. -/
theorem c9_color_component_not_clamped :
    (addKey (setColor (initState true) 1 300 0 0) 60 100 0 0 ⟨0, 0⟩).cmds
        = [Cmd.setLight (pitchToLight 71 (-2) 60) 300 0 0]
      ∧ ¬ (300 : Int) ≤ 255 :=
  ⟨rfl, by decide⟩

theorem setTutorLight_c4light (s : TutorState) (pitch velo channel future : Int) :
    (setTutorLight s pitch velo channel future).c4light = s.c4light := by
  unfold setTutorLight; split <;> rfl

theorem setTutorLight_coeff (s : TutorState) (pitch velo channel future : Int) :
    (setTutorLight s pitch velo channel future).coeff = s.coeff := by
  unfold setTutorLight; split <;> rfl

theorem commitKey_c4light (s : TutorState) (pitch velo channel future : Int) :
    (commitKey s pitch velo channel future).c4light = s.c4light := by
  unfold commitKey; rw [setTutorLight_c4light]; rfl

theorem commitKey_coeff (s : TutorState) (pitch velo channel future : Int) :
    (commitKey s pitch velo channel future).coeff = s.coeff := by
  unfold commitKey; rw [setTutorLight_coeff]; rfl

/-- C2 (amended): when the slot holds a future event and no current
events are pending, `keyPressed(p, v)` with `v > 0` returns the event's
horizon, records `now` into the slot's timestamp per the anti-flicker
rule — the claim itself REMAINS in the slot — schedules a deferred
flush, and writes no command; counter and trace are unchanged. -/
theorem c2_keyPressed_future_skip (s : TutorState) (pitch velo : Int) (now : Timespec)
    (hv : 0 < velo)
    (hcl : (s.notes (pitchIdx pitch)).velo ≠ -1 ∧ (s.notes (pitchIdx pitch)).velo ≠ -2)
    (hf : (s.notes (pitchIdx pitch)).future > 0)
    (hn : s.num_curr_events = 0) :
    keyPressed s pitch velo now
        = (scheduleFlush (writeNote s (pitchIdx pitch)
            { s.notes (pitchIdx pitch) with ts := now }),
          (s.notes (pitchIdx pitch)).future)
      ∧ (keyPressed s pitch velo now).1.cmds = s.cmds
      ∧ (keyPressed s pitch velo now).1.num_curr_events = s.num_curr_events
      ∧ (keyPressed s pitch velo now).1.flush_scheduled = true := by
  have h0 : ¬ velo = 0 := by omega
  have h2 : ¬ ((s.notes (pitchIdx pitch)).velo = -1
      ∨ (s.notes (pitchIdx pitch)).velo = -2) := by
    push_neg; exact hcl
  have h3 : ¬ (s.notes (pitchIdx pitch)).future = 0 := by omega
  have h5 : (s.notes (pitchIdx pitch)).future > 0 ∧ s.num_curr_events = 0 := ⟨hf, hn⟩
  have hck : clearKeyNoLock s pitch true now
      = writeNote s (pitchIdx pitch) { s.notes (pitchIdx pitch) with ts := now } := by
    unfold clearKeyNoLock
    rw [if_neg hcl.2, if_pos hcl.1, if_neg h3, if_pos rfl]
  have key : keyPressed s pitch velo now
      = (scheduleFlush (writeNote s (pitchIdx pitch)
          { s.notes (pitchIdx pitch) with ts := now }),
        (s.notes (pitchIdx pitch)).future) := by
    unfold keyPressed
    rw [if_neg h0, if_neg h2, if_neg h3, if_pos h5, hck]
  rw [key]
  exact ⟨rfl, rfl, rfl, rfl⟩

/-- Witness for C2 (amended): the concrete skip scenario — horizon 3 is
returned, the slot's timestamp is marked, a flush is scheduled. -/
theorem c2_keyPressed_future_skip_witness :
    (0 : Int) < 64
      ∧ ((exFutureState.notes (pitchIdx 60)).velo ≠ -1
          ∧ (exFutureState.notes (pitchIdx 60)).velo ≠ -2)
      ∧ (exFutureState.notes (pitchIdx 60)).future > 0
      ∧ exFutureState.num_curr_events = 0
      ∧ keyPressed exFutureState 60 64 ⟨100, 0⟩
          = (scheduleFlush (writeNote exFutureState (pitchIdx 60)
              { exFutureState.notes (pitchIdx 60) with ts := ⟨100, 0⟩ }),
            (exFutureState.notes (pitchIdx 60)).future) :=
  ⟨by decide, by decide, by decide, by decide,
    (c2_keyPressed_future_skip exFutureState 60 64 ⟨100, 0⟩
      (by decide) (by decide) (by decide) (by decide)).1⟩

/-- C5 (amended): a current claim (`horizon = 0`, `v > 0`, `c ≠ -1`)
on a pitch whose slot holds a claimed future event always wins the
arbitration regardless of the velocities: PROVIDED the anti-flicker
rule does not fire (no recorded timestamp, or the call is at least
100 ms after it), the slot is overwritten with
`(velocity, channel, horizon = 0)` and `num_curr_events` is
incremented by one. -/
theorem c5_current_displaces_future (s : TutorState) (pitch velo channel : Int)
    (now : Timespec)
    (hv : 0 < velo) (hc : channel ≠ -1)
    (hcl : (s.notes (pitchIdx pitch)).velo ≠ -1 ∧ (s.notes (pitchIdx pitch)).velo ≠ -2)
    (hf : (s.notes (pitchIdx pitch)).future > 0)
    (hnf : ¬ antiFlickerFires (s.notes (pitchIdx pitch)) 0 now) :
    (addKey s pitch velo channel 0 now).notes (pitchIdx pitch)
        = ⟨velo, channel, 0, ⟨0, 0⟩⟩
      ∧ (addKey s pitch velo channel 0 now).num_curr_events
        = s.num_curr_events + 1 := by
  have h0 : ¬ velo = 0 := by omega
  have hid : ¬ (velo = (s.notes (pitchIdx pitch)).velo
      ∧ channel = (s.notes (pitchIdx pitch)).channel
      ∧ (0 : Int) = (s.notes (pitchIdx pitch)).future) := by
    rintro ⟨-, -, h⟩; omega
  have hw1 : (0 : Int) = 0 ∧ (s.notes (pitchIdx pitch)).future > 0 := ⟨rfl, hf⟩
  have key : addKey s pitch velo channel 0 now
      = commitKey (bumpCurr s) pitch velo channel 0 := by
    unfold addKey
    rw [if_neg h0, if_neg hid, if_neg hc, if_pos hcl, if_pos hw1]
    by_cases hts : (s.notes (pitchIdx pitch)).ts.tv_sec ≠ 0
        ∨ (s.notes (pitchIdx pitch)).ts.tv_nsec ≠ 0
    · rw [if_pos hts]
      unfold antiFlicker
      rw [if_pos hts,
        if_neg (fun hd => hnf ⟨hcl.1, hcl.2, rfl, hf, hts, hd⟩)]
    · rw [if_neg hts]
      unfold antiFlicker
      rw [if_neg (show ¬ ((⟨0, 0⟩ : Timespec).tv_sec ≠ 0
        ∨ (⟨0, 0⟩ : Timespec).tv_nsec ≠ 0) by simp)]
  rw [key]
  refine ⟨commitKey_notes_self _ _ _ _ _, ?_⟩
  rw [commitKey_num]
  rfl

/-- Witness for C5 (amended): the future event on pitch 60 carries no
timestamp, so `addKey(60, 90, 0, 0)` displaces it and the counter goes
from 0 to 1. -/
theorem c5_current_displaces_future_witness :
    (0 : Int) < 90
      ∧ ((exFutureState.notes (pitchIdx 60)).velo ≠ -1
          ∧ (exFutureState.notes (pitchIdx 60)).velo ≠ -2)
      ∧ (exFutureState.notes (pitchIdx 60)).future > 0
      ∧ ¬ antiFlickerFires (exFutureState.notes (pitchIdx 60)) 0 ⟨5, 0⟩
      ∧ (addKey exFutureState 60 90 0 0 ⟨5, 0⟩).notes (pitchIdx 60)
          = ⟨90, 0, 0, ⟨0, 0⟩⟩
      ∧ (addKey exFutureState 60 90 0 0 ⟨5, 0⟩).num_curr_events
          = exFutureState.num_curr_events + 1 :=
  ⟨by decide, by decide, by decide, by decide,
    (c5_current_displaces_future exFutureState 60 90 0 ⟨5, 0⟩
      (by decide) (by decide) (by decide) (by decide) (by decide)).1,
    (c5_current_displaces_future exFutureState 60 90 0 ⟨5, 0⟩
      (by decide) (by decide) (by decide) (by decide) (by decide)).2⟩

/-- C6: on a claimed slot, for a new claim with `v > 0`, `c ≠ -1`:
a future claim (`h > 0`) with horizon different from the stored one
wins exactly when its horizon is smaller; with equal horizons the
higher velocity wins; a losing request leaves the entire state
unchanged (slot untouched, no light command). -/
theorem c6_horizon_velocity_arbitration (s : TutorState)
    (pitch velo channel future : Int) (now : Timespec)
    (hv : 0 < velo) (hc : channel ≠ -1)
    (hcl : (s.notes (pitchIdx pitch)).velo ≠ -1 ∧ (s.notes (pitchIdx pitch)).velo ≠ -2) :
    (0 < future → (s.notes (pitchIdx pitch)).future < future →
      addKey s pitch velo channel future now = s)
    ∧ (0 < future → future < (s.notes (pitchIdx pitch)).future →
      (addKey s pitch velo channel future now).notes (pitchIdx pitch)
        = ⟨velo, channel, future, ⟨0, 0⟩⟩)
    ∧ (future = (s.notes (pitchIdx pitch)).future →
        (s.notes (pitchIdx pitch)).velo < velo →
      (addKey s pitch velo channel future now).notes (pitchIdx pitch)
        = ⟨velo, channel, future, ⟨0, 0⟩⟩)
    ∧ (future = (s.notes (pitchIdx pitch)).future →
        velo < (s.notes (pitchIdx pitch)).velo →
      addKey s pitch velo channel future now = s) := by
  have h0 : ¬ velo = 0 := by omega
  refine ⟨?_, ?_, ?_, ?_⟩
  · intro hfp hlt
    unfold addKey
    rw [if_neg h0, if_neg (by rintro ⟨-, -, h⟩; omega), if_neg hc, if_pos hcl,
      if_neg (by rintro ⟨h, -⟩; omega), if_pos (Or.inl hlt)]
  · intro hfp hlt
    unfold addKey
    rw [if_neg h0, if_neg (by rintro ⟨-, -, h⟩; omega), if_neg hc, if_pos hcl,
      if_neg (by rintro ⟨h, -⟩; omega),
      if_neg (by rintro (h | ⟨h, -⟩) <;> omega)]
    exact commitKey_notes_self _ _ _ _ _
  · intro hfe hvel
    unfold addKey
    rw [if_neg h0, if_neg (by rintro ⟨h, -, -⟩; omega), if_neg hc, if_pos hcl,
      if_neg (by rintro ⟨h, hgt⟩; omega),
      if_neg (by rintro (h | ⟨-, h⟩) <;> omega)]
    exact commitKey_notes_self _ _ _ _ _
  · intro hfe hvel
    unfold addKey
    rw [if_neg h0, if_neg (by rintro ⟨h, -, -⟩; omega), if_neg hc, if_pos hcl,
      if_neg (by rintro ⟨h, hgt⟩; omega),
      if_pos (Or.inr ⟨hfe, hvel⟩)]

/-- Witness for C6: on a slot holding `(velo 100, channel 0, horizon 2)`:
horizon 3 loses (state unchanged), horizon 1 wins, equal horizon with
velocity 120 wins, equal horizon with velocity 50 loses. -/
theorem c6_horizon_velocity_arbitration_witness :
    exClaimedState.notes (pitchIdx 60) = ⟨100, 0, 2, ⟨0, 0⟩⟩
      ∧ addKey exClaimedState 60 50 0 3 ⟨0, 0⟩ = exClaimedState
      ∧ (addKey exClaimedState 60 50 0 1 ⟨0, 0⟩).notes (pitchIdx 60)
          = ⟨50, 0, 1, ⟨0, 0⟩⟩
      ∧ (addKey exClaimedState 60 120 0 2 ⟨0, 0⟩).notes (pitchIdx 60)
          = ⟨120, 0, 2, ⟨0, 0⟩⟩
      ∧ addKey exClaimedState 60 50 0 2 ⟨0, 0⟩ = exClaimedState :=
  ⟨by decide,
    (c6_horizon_velocity_arbitration exClaimedState 60 50 0 3 ⟨0, 0⟩
      (by decide) (by decide) (by decide)).1 (by decide) (by decide),
    (c6_horizon_velocity_arbitration exClaimedState 60 50 0 1 ⟨0, 0⟩
      (by decide) (by decide) (by decide)).2.1 (by decide) (by decide),
    (c6_horizon_velocity_arbitration exClaimedState 60 120 0 2 ⟨0, 0⟩
      (by decide) (by decide) (by decide)).2.2.1 (by decide) (by decide),
    (c6_horizon_velocity_arbitration exClaimedState 60 50 0 2 ⟨0, 0⟩
      (by decide) (by decide) (by decide)).2.2.2 (by decide) (by decide)⟩

/-- C7 (amended): if the previous slot held a future event with a
recorded `last_claim_time` and a new CURRENT claim (`horizon 0`,
`v ≠ 0`, `c ≠ -1`) arrives within 100 ms of that timestamp (device up),
then after the light-set command the light is immediately cleared
again, the increment of `num_curr_events` is undone by the decrement
(net: unchanged), and the slot is reset to unused (`velo = -1`). -/
theorem c7_antiflicker_clears_within_window (s : TutorState)
    (pitch velo channel : Int) (now : Timespec)
    (hser : s.serialOk = true)
    (hv : velo ≠ 0) (hc : channel ≠ -1)
    (hcl : (s.notes (pitchIdx pitch)).velo ≠ -1 ∧ (s.notes (pitchIdx pitch)).velo ≠ -2)
    (hf : (s.notes (pitchIdx pitch)).future > 0)
    (hts : (s.notes (pitchIdx pitch)).ts.tv_sec ≠ 0
      ∨ (s.notes (pitchIdx pitch)).ts.tv_nsec ≠ 0)
    (hdiff : diff_us now (s.notes (pitchIdx pitch)).ts < 100000) :
    (addKey s pitch velo channel 0 now).cmds
        = s.cmds ++ [lightCmd s pitch channel 0,
            Cmd.setLight (pitchToLight s.c4light s.coeff pitch) 0 0 0]
      ∧ (addKey s pitch velo channel 0 now).num_curr_events = s.num_curr_events
      ∧ (addKey s pitch velo channel 0 now).notes (pitchIdx pitch)
          = ⟨-1, channel, 0, ⟨0, 0⟩⟩ := by
  have hid : ¬ (velo = (s.notes (pitchIdx pitch)).velo
      ∧ channel = (s.notes (pitchIdx pitch)).channel
      ∧ (0 : Int) = (s.notes (pitchIdx pitch)).future) := by
    rintro ⟨-, -, h⟩; omega
  have key : addKey s pitch velo channel 0 now
      = writeNote (dropCurr (clearTutorLight
            (commitKey (bumpCurr s) pitch velo channel 0) pitch)) (pitchIdx pitch)
          { (clearTutorLight (commitKey (bumpCurr s) pitch velo channel 0) pitch).notes
              (pitchIdx pitch) with velo := -1 } := by
    unfold addKey
    rw [if_neg hv, if_neg hid, if_neg hc, if_pos hcl,
      if_pos (⟨rfl, hf⟩ : (0 : Int) = 0 ∧ (s.notes (pitchIdx pitch)).future > 0),
      if_pos hts]
    unfold antiFlicker
    rw [if_pos hts, if_pos hdiff]
  have hser2 : (commitKey (bumpCurr s) pitch velo channel 0).serialOk = true := by
    rw [commitKey_serialOk]; exact hser
  have hcmds2 : (commitKey (bumpCurr s) pitch velo channel 0).cmds
      = s.cmds ++ [lightCmd s pitch channel 0] := by
    rw [commitKey_cmds _ _ _ _ _ (show (bumpCurr s).serialOk = true from hser)]
    rfl
  refine ⟨?_, ?_, ?_⟩
  · rw [key]
    show (clearTutorLight (commitKey (bumpCurr s) pitch velo channel 0) pitch).cmds = _
    rw [clearTutorLight_cmds _ _ hser2, hcmds2, commitKey_c4light, commitKey_coeff,
      List.append_assoc]
    rfl
  · rw [key]
    show (clearTutorLight (commitKey (bumpCurr s) pitch velo channel 0) pitch).num_curr_events
        - 1 = s.num_curr_events
    rw [clearTutorLight_num, commitKey_num]
    show s.num_curr_events + 1 - 1 = s.num_curr_events
    omega
  · rw [key]
    show Function.update
        (dropCurr (clearTutorLight (commitKey (bumpCurr s) pitch velo channel 0) pitch)).notes
        (pitchIdx pitch) _ (pitchIdx pitch) = _
    rw [Function.update_same]
    show { (clearTutorLight (commitKey (bumpCurr s) pitch velo channel 0) pitch).notes
        (pitchIdx pitch) with velo := -1 } = _
    rw [show (clearTutorLight (commitKey (bumpCurr s) pitch velo channel 0) pitch).notes
        = (commitKey (bumpCurr s) pitch velo channel 0).notes
      from clearTutorLight_notes _ _, commitKey_notes_self]

/-- Witness for C7 (amended): the marked future event on pitch 60 is
displaced by `addKey(60, 90, 0, 0)` 50 ms after the mark; the trace
gains a set followed by a clear, the counter nets to its old value, and
the slot ends unused. -/
theorem c7_antiflicker_clears_within_window_witness :
    exMarkedState.serialOk = true
      ∧ ((exMarkedState.notes (pitchIdx 60)).velo ≠ -1
          ∧ (exMarkedState.notes (pitchIdx 60)).velo ≠ -2)
      ∧ (exMarkedState.notes (pitchIdx 60)).future > 0
      ∧ ((exMarkedState.notes (pitchIdx 60)).ts.tv_sec ≠ 0
          ∨ (exMarkedState.notes (pitchIdx 60)).ts.tv_nsec ≠ 0)
      ∧ diff_us ⟨100, 50000000⟩ (exMarkedState.notes (pitchIdx 60)).ts < 100000
      ∧ (addKey exMarkedState 60 90 0 0 ⟨100, 50000000⟩).cmds
          = exMarkedState.cmds ++ [lightCmd exMarkedState 60 0 0,
              Cmd.setLight (pitchToLight exMarkedState.c4light exMarkedState.coeff 60) 0 0 0]
      ∧ (addKey exMarkedState 60 90 0 0 ⟨100, 50000000⟩).num_curr_events
          = exMarkedState.num_curr_events
      ∧ (addKey exMarkedState 60 90 0 0 ⟨100, 50000000⟩).notes (pitchIdx 60)
          = ⟨-1, 0, 0, ⟨0, 0⟩⟩ :=
  ⟨by decide, by decide, by decide, by decide, by decide,
    (c7_antiflicker_clears_within_window exMarkedState 60 90 0 ⟨100, 50000000⟩
      (by decide) (by decide) (by decide) (by decide) (by decide) (by decide)
      (by decide)).1,
    (c7_antiflicker_clears_within_window exMarkedState 60 90 0 ⟨100, 50000000⟩
      (by decide) (by decide) (by decide) (by decide) (by decide) (by decide)
      (by decide)).2.1,
    (c7_antiflicker_clears_within_window exMarkedState 60 90 0 ⟨100, 50000000⟩
      (by decide) (by decide) (by decide) (by decide) (by decide) (by decide)
      (by decide)).2.2⟩

/-- C4 (amended): for `v > 0` and `c ≠ -1`, and provided the first call
does not trigger the anti-flicker auto-clear, two back-to-back
`addKey(p, v, c, h)` calls with identical arguments leave the second
call a complete no-op: the resulting state (trace included) equals the
state after the first call, so no second light command is issued. -/
theorem c4_duplicate_suppression (s : TutorState) (pitch velo channel future : Int)
    (now1 now2 : Timespec)
    (hv : 0 < velo) (hc : channel ≠ -1)
    (hnf : ¬ antiFlickerFires (s.notes (pitchIdx pitch)) future now1) :
    addKey (addKey s pitch velo channel future now1) pitch velo channel future now2
      = addKey s pitch velo channel future now1 := by
  have h0 : ¬ velo = 0 := by omega
  by_cases hid : velo = (s.notes (pitchIdx pitch)).velo
      ∧ channel = (s.notes (pitchIdx pitch)).channel
      ∧ future = (s.notes (pitchIdx pitch)).future
  · rw [addKey_idem s pitch velo channel future now1 h0 hid,
      addKey_idem s pitch velo channel future now2 h0 hid]
  · by_cases hcl : (s.notes (pitchIdx pitch)).velo ≠ -1
        ∧ (s.notes (pitchIdx pitch)).velo ≠ -2
    · by_cases hw1 : future = 0 ∧ (s.notes (pitchIdx pitch)).future > 0
      · have key : addKey s pitch velo channel future now1
            = commitKey (bumpCurr s) pitch velo channel future := by
          unfold addKey
          rw [if_neg h0, if_neg hid, if_neg hc, if_pos hcl, if_pos hw1]
          by_cases hts : (s.notes (pitchIdx pitch)).ts.tv_sec ≠ 0
              ∨ (s.notes (pitchIdx pitch)).ts.tv_nsec ≠ 0
          · rw [if_pos hts]
            unfold antiFlicker
            rw [if_pos hts,
              if_neg (fun hd => hnf ⟨hcl.1, hcl.2, hw1.1, hw1.2, hts, hd⟩)]
          · rw [if_neg hts]
            unfold antiFlicker
            rw [if_neg (show ¬ ((⟨0, 0⟩ : Timespec).tv_sec ≠ 0
              ∨ (⟨0, 0⟩ : Timespec).tv_nsec ≠ 0) by simp)]
        rw [key]
        exact addKey_idem _ _ _ _ _ _ h0
          (by rw [commitKey_notes_self]; exact ⟨rfl, rfl, rfl⟩)
      · by_cases hl : future > (s.notes (pitchIdx pitch)).future
            ∨ (future = (s.notes (pitchIdx pitch)).future
                ∧ velo < (s.notes (pitchIdx pitch)).velo)
        · have key : addKey s pitch velo channel future now1 = s := by
            unfold addKey
            rw [if_neg h0, if_neg hid, if_neg hc, if_pos hcl, if_neg hw1, if_pos hl]
          rw [key]
          unfold addKey
          rw [if_neg h0, if_neg hid, if_neg hc, if_pos hcl, if_neg hw1, if_pos hl]
        · have key : addKey s pitch velo channel future now1
              = commitKey s pitch velo channel future := by
            unfold addKey
            rw [if_neg h0, if_neg hid, if_neg hc, if_pos hcl, if_neg hw1, if_neg hl]
          rw [key]
          exact addKey_idem _ _ _ _ _ _ h0
            (by rw [commitKey_notes_self]; exact ⟨rfl, rfl, rfl⟩)
    · have key : addKey s pitch velo channel future now1
          = commitKey (if future = 0 then bumpCurr s else s) pitch velo channel future := by
        unfold addKey
        rw [if_neg h0, if_neg hid, if_neg hc, if_neg hcl]
      rw [key]
      exact addKey_idem _ _ _ _ _ _ h0
        (by rw [commitKey_notes_self]; exact ⟨rfl, rfl, rfl⟩)

/-- Witness for C4 (amended): two identical `addKey(60, 100, 0, 0)`
calls on a fresh controller: the second changes nothing. -/
theorem c4_duplicate_suppression_witness :
    (0 : Int) < 100 ∧ (0 : Int) ≠ -1
      ∧ ¬ antiFlickerFires ((initState true).notes (pitchIdx 60)) 0 ⟨0, 0⟩
      ∧ addKey (addKey (initState true) 60 100 0 0 ⟨0, 0⟩) 60 100 0 0 ⟨0, 0⟩
          = addKey (initState true) 60 100 0 0 ⟨0, 0⟩ :=
  ⟨by decide, by decide, by decide,
    c4_duplicate_suppression (initState true) 60 100 0 0 ⟨0, 0⟩ ⟨0, 0⟩
      (by decide) (by decide) (by decide)⟩

/-- Trace refinement used for C9: every command of `t` is either an old
command of `s` or a set-light command whose LED index lies in
`[0, 255]`. -/
def NewCmdClamped (s t : TutorState) : Prop :=
  ∀ c ∈ t.cmds, c ∈ s.cmds
    ∨ ∃ led r g b, c = Cmd.setLight led r g b ∧ 0 ≤ led ∧ led ≤ 255

theorem pitchToLight_mem_range (c4light : Int) (coeff : ℚ) (pitch : Int) :
    0 ≤ pitchToLight c4light coeff pitch ∧ pitchToLight c4light coeff pitch ≤ 255 := by
  unfold pitchToLight clampLed
  split_ifs <;> omega

theorem newCmdClamped_rfl (s : TutorState) : NewCmdClamped s s :=
  fun _ hc => Or.inl hc

theorem newCmdClamped_of_cmds_eq (s t : TutorState) (h : t.cmds = s.cmds) :
    NewCmdClamped s t := fun _ hc => Or.inl (h ▸ hc)

theorem newCmdClamped_trans (s t u : TutorState)
    (h1 : NewCmdClamped s t) (h2 : NewCmdClamped t u) : NewCmdClamped s u := by
  intro c hc
  rcases h2 c hc with h | h
  · exact h1 c h
  · exact Or.inr h

theorem newCmdClamped_setTutorLight (s : TutorState) (pitch velo channel future : Int) :
    NewCmdClamped s (setTutorLight s pitch velo channel future) := by
  unfold setTutorLight
  by_cases h : s.serialOk = true
  · rw [if_pos h]
    intro c hc
    rcases List.mem_append.mp hc with hold | hnew
    · exact Or.inl hold
    · right
      rw [List.mem_singleton.mp hnew]
      exact ⟨_, _, _, _, rfl,
        (pitchToLight_mem_range _ _ _).1, (pitchToLight_mem_range _ _ _).2⟩
  · rw [if_neg h]
    exact newCmdClamped_rfl s

theorem newCmdClamped_clearTutorLight (s : TutorState) (pitch : Int) :
    NewCmdClamped s (clearTutorLight s pitch) := by
  unfold clearTutorLight
  by_cases h : s.serialOk = true
  · rw [if_pos h]
    intro c hc
    rcases List.mem_append.mp hc with hold | hnew
    · exact Or.inl hold
    · right
      rw [List.mem_singleton.mp hnew]
      exact ⟨_, _, _, _, rfl,
        (pitchToLight_mem_range _ _ _).1, (pitchToLight_mem_range _ _ _).2⟩
  · rw [if_neg h]
    exact newCmdClamped_rfl s

theorem newCmdClamped_setTutorLightPressed (s : TutorState) (pitch : Int) :
    NewCmdClamped s (setTutorLightPressed s pitch) := by
  unfold setTutorLightPressed
  by_cases h : s.serialOk = true
  · rw [if_pos h]
    intro c hc
    rcases List.mem_append.mp hc with hold | hnew
    · exact Or.inl hold
    · right
      rw [List.mem_singleton.mp hnew]
      exact ⟨_, _, _, _, rfl,
        (pitchToLight_mem_range _ _ _).1, (pitchToLight_mem_range _ _ _).2⟩
  · rw [if_neg h]
    exact newCmdClamped_rfl s

theorem newCmdClamped_commitKey (s : TutorState) (pitch velo channel future : Int) :
    NewCmdClamped s (commitKey s pitch velo channel future) := by
  unfold commitKey
  exact newCmdClamped_trans _ _ _ (newCmdClamped_of_cmds_eq _ _ rfl)
    (newCmdClamped_setTutorLight _ _ _ _ _)

theorem newCmdClamped_antiFlicker (s : TutorState) (pitch : Int) (prev now : Timespec) :
    NewCmdClamped s (antiFlicker s pitch prev now) := by
  unfold antiFlicker
  split_ifs
  · exact newCmdClamped_trans _ _ _ (newCmdClamped_clearTutorLight _ _)
      (newCmdClamped_of_cmds_eq _ _ rfl)
  · exact newCmdClamped_rfl s
  · exact newCmdClamped_rfl s

theorem newCmdClamped_clearKeyNoLock (s : TutorState) (pitch : Int) (mark : Bool)
    (now : Timespec) : NewCmdClamped s (clearKeyNoLock s pitch mark now) := by
  unfold clearKeyNoLock
  split_ifs <;>
    first
      | exact newCmdClamped_rfl _
      | exact newCmdClamped_of_cmds_eq _ _ rfl
      | exact newCmdClamped_trans _ _ _ (newCmdClamped_clearTutorLight _ _)
          (newCmdClamped_of_cmds_eq _ _ rfl)

theorem newCmdClamped_bumped_commitKey (s : TutorState) (pitch velo channel future : Int) :
    NewCmdClamped s (commitKey (bumpCurr s) pitch velo channel future) :=
  newCmdClamped_trans s (bumpCurr s) _
    (newCmdClamped_of_cmds_eq s (bumpCurr s) rfl)
    (newCmdClamped_commitKey (bumpCurr s) pitch velo channel future)

theorem newCmdClamped_addKey (s : TutorState) (pitch velo channel future : Int)
    (now : Timespec) : NewCmdClamped s (addKey s pitch velo channel future now) := by
  unfold addKey
  split_ifs
  · exact newCmdClamped_clearKeyNoLock s pitch false now
  · exact newCmdClamped_rfl s
  · exact newCmdClamped_trans s (setTutorLight s pitch velo channel 0) _
      (newCmdClamped_setTutorLight s pitch velo channel 0)
      (newCmdClamped_of_cmds_eq _ _ rfl)
  · exact newCmdClamped_trans s (commitKey (bumpCurr s) pitch velo channel future) _
      (newCmdClamped_bumped_commitKey s pitch velo channel future)
      (newCmdClamped_antiFlicker (commitKey (bumpCurr s) pitch velo channel future)
        pitch (s.notes (pitchIdx pitch)).ts now)
  · exact newCmdClamped_trans s (commitKey (bumpCurr s) pitch velo channel future) _
      (newCmdClamped_bumped_commitKey s pitch velo channel future)
      (newCmdClamped_antiFlicker (commitKey (bumpCurr s) pitch velo channel future)
        pitch ⟨0, 0⟩ now)
  · exact newCmdClamped_rfl s
  · exact newCmdClamped_commitKey s pitch velo channel future
  · exact newCmdClamped_bumped_commitKey s pitch velo channel future
  · exact newCmdClamped_commitKey s pitch velo channel future

theorem newCmdClamped_keyPressed (s : TutorState) (pitch velo : Int) (now : Timespec) :
    NewCmdClamped s (keyPressed s pitch velo now).1 := by
  unfold keyPressed
  split_ifs
  · exact newCmdClamped_rfl s
  · exact newCmdClamped_rfl s
  · exact newCmdClamped_trans s
      (writeNote s (pitchIdx pitch) { s.notes (pitchIdx pitch) with velo := -2 }) _
      (newCmdClamped_of_cmds_eq _ _ rfl)
      (newCmdClamped_setTutorLightPressed
        (writeNote s (pitchIdx pitch) { s.notes (pitchIdx pitch) with velo := -2 }) pitch)
  · exact newCmdClamped_trans s
      (writeNote s (pitchIdx pitch) { s.notes (pitchIdx pitch) with velo := -1 }) _
      (newCmdClamped_of_cmds_eq _ _ rfl)
      (newCmdClamped_clearTutorLight
        (writeNote s (pitchIdx pitch) { s.notes (pitchIdx pitch) with velo := -1 }) pitch)
  · exact newCmdClamped_clearKeyNoLock s pitch true now
  · exact newCmdClamped_rfl s

/-- C9 (amended): every command a public operation (`addKey`,
`clearKey`, `keyPressed`) appends to the trace is a set-light command
whose LED index is silently clamped to `[0, 255]` before being encoded
(the slot index is likewise reduced to `[0, 255]` by masking), and all
operations are total — no error is ever surfaced.  Color components,
however, are passed through unclamped (see the counterexample). -/
theorem c9_led_index_clamped (s : TutorState) (op : TutorOp) :
    ∀ c ∈ (applyOp s op).cmds, c ∈ s.cmds
      ∨ ∃ led r g b, c = Cmd.setLight led r g b ∧ 0 ≤ led ∧ led ≤ 255 := by
  cases op with
  | add pitch velo channel future now =>
    exact newCmdClamped_addKey s pitch velo channel future now
  | clear pitch mark now =>
    exact newCmdClamped_clearKeyNoLock s pitch mark now
  | press pitch velo now =>
    exact newCmdClamped_keyPressed s pitch velo now

/-- Witness for C9 (amended): the command emitted by
`addKey(60, 100, 0, 0)` on a fresh controller is a set-light command
with an in-range LED index. -/
theorem c9_led_index_clamped_witness :
    Cmd.setLight (pitchToLight 71 (-2) 60) 16 0 16
        ∈ (applyOp (initState true) (TutorOp.add 60 100 0 0 ⟨0, 0⟩)).cmds
      ∧ (Cmd.setLight (pitchToLight 71 (-2) 60) 16 0 16 ∈ (initState true).cmds
          ∨ ∃ led r g b, Cmd.setLight (pitchToLight 71 (-2) 60) 16 0 16
              = Cmd.setLight led r g b ∧ 0 ≤ led ∧ led ≤ 255) :=
  ⟨List.Mem.head _,
    c9_led_index_clamped (initState true) (TutorOp.add 60 100 0 0 ⟨0, 0⟩)
      (Cmd.setLight (pitchToLight 71 (-2) 60) 16 0 16) (List.Mem.head _)⟩
